import Mathlib

/-!
Shallow embedding of the book-catalog web scraper
(source: src/web_scraper_deepseek.py, class BookScraper).

The HTTP transport and the HTML parser are external collaborators; pages
arrive here already parsed, as values of an explicit document-tree type
(Node), and the network is an explicit environment function from URL to
fetch result.  Machine effects (the politeness sleep, the log, the CSV
file) are modelled as explicit data in the results.
-/

/-! ## Python string helpers used by the scraper -/

/-- The whitespace characters removed by Python str.strip(). -/
def pySpace (c : Char) : Bool :=
  c = ' ' || c = '\t' || c = '\n' || c = '\r' || c = '\x0b' || c = '\x0c'

/-- Model of Python str.strip(): remove leading and trailing whitespace. -/
def pyStrip (s : String) : String :=
  String.mk (((s.toList.dropWhile pySpace).reverse.dropWhile pySpace).reverse)

/-- Model of Python str.split(sep) for a one-character separator:
splitting the empty string yields one empty field. -/
def splitChar (sep : Char) : List Char → List (List Char)
  | [] => [[]]
  | c :: cs =>
    if c = sep then [] :: splitChar sep cs
    else
      match splitChar sep cs with
      | h :: t => (c :: h) :: t
      | [] => [[c]]

/-- Model of Python sep.join(parts) for a one-character separator. -/
def joinChar (sep : Char) : List (List Char) → List Char
  | [] => []
  | [x] => x
  | x :: xs => x ++ sep :: joinChar sep xs

/-! ## urllib.parse.urljoin

Modelled from the documented semantics of the external collaborator
urllib.parse.urljoin (CPython Lib/urllib/parse.py), restricted to the
hierarchical URLs this scraper handles: no query, fragment or params
components, lower-case scheme spelling. -/

/-- Characters allowed in a URL scheme. -/
def schemeChar (c : Char) : Bool :=
  c.isAlpha || c.isDigit || c = '+' || c = '-' || c = '.'

/-- Split a URL into (scheme, remainder); scheme is empty when absent. -/
def splitScheme (s : String) : String × String :=
  let cs := s.toList
  let pre := cs.takeWhile (fun c => c ≠ ':')
  match cs.dropWhile (fun c => c ≠ ':') with
  | _ :: rest =>
    if pre ≠ [] ∧ pre.all schemeChar = true then
      (String.mk pre, String.mk rest)
    else ("", s)
  | [] => ("", s)

/-- Split a scheme-less URL remainder into (netloc, path);
netloc is empty when the remainder does not start with "//". -/
def splitNetloc (s : String) : String × String :=
  match s.toList with
  | '/' :: '/' :: rest =>
    let net := rest.takeWhile (fun c => c ≠ '/')
    (String.mk net, String.mk (rest.drop net.length))
  | _ => ("", s)

/-- Schemes that allow relative resolution (urllib.parse.uses_relative). -/
def usesRelative : List String :=
  ["", "ftp", "http", "gopher", "nntp", "imap", "wais", "file", "https",
   "shttp", "mms", "prospero", "rtsp", "rtspu", "sftp", "svn", "svn+ssh",
   "ws", "wss"]

/-- Schemes that use a network location (urllib.parse.uses_netloc). -/
def usesNetloc : List String :=
  ["", "ftp", "http", "gopher", "nntp", "telnet", "imap", "wais", "file",
   "mms", "https", "shttp", "snews", "prospero", "rtsp", "rtspu", "rsync",
   "svn", "svn+ssh", "sftp", "nfs", "git", "git+ssh", "ws", "wss"]

/-- Model of urllib.parse.urlunsplit restricted to scheme, netloc, path. -/
def unsplitUrl (scheme netloc path : String) : String :=
  let url :=
    if netloc ≠ "" ∨ path.toList.take 2 = ['/', '/'] then
      let p := if path ≠ "" ∧ path.toList.take 1 ≠ ['/'] then "/" ++ path else path
      "//" ++ netloc ++ p
    else path
  if scheme ≠ "" then scheme ++ ":" ++ url else url

/-- CPython urljoin keeps the first and the last of the merged segment
list and drops empty interior segments. -/
def filterMiddle (l : List (List Char)) : List (List Char) :=
  match l with
  | [] => []
  | [a] => [a]
  | a :: rest =>
    match rest.reverse with
    | [] => [a]
    | last :: midsRev =>
      a :: ((midsRev.reverse.filter (fun seg => seg ≠ [])) ++ [last])

/-- The dot-segment resolution loop of CPython urljoin: ".." pops the
last resolved segment (ignoring underflow), "." is skipped, and a final
"." or ".." re-appends a trailing empty segment. -/
def resolveSegments (segments : List (List Char)) : List (List Char) :=
  let r := segments.foldl
    (fun acc seg =>
      if seg = ['.', '.'] then acc.dropLast
      else if seg = ['.'] then acc
      else acc ++ [seg]) []
  match segments.getLast? with
  | some s => if s = ['.'] ∨ s = ['.', '.'] then r ++ [[]] else r
  | none => r

/-- Model of urllib.parse.urljoin (for URLs without query/fragment). -/
def urljoin (base url : String) : String :=
  if base = "" then url
  else if url = "" then base
  else
    let bs := splitScheme base
    let us := splitScheme url
    let scheme := if us.1 = "" then bs.1 else us.1
    if scheme ≠ bs.1 ∨ scheme ∉ usesRelative then url
    else
      let bn := splitNetloc bs.2
      let un := splitNetloc us.2
      if scheme ∈ usesNetloc ∧ un.1 ≠ "" then unsplitUrl scheme un.1 un.2
      else
        let netloc := if scheme ∈ usesNetloc then bn.1 else un.1
        let path := un.2
        if path = "" then unsplitUrl scheme netloc bn.2
        else
          let bparts0 := splitChar '/' bn.2.toList
          let bparts := if bparts0.getLast? = some [] then bparts0 else bparts0.dropLast
          let psegs := splitChar '/' path.toList
          let segments :=
            if path.toList.take 1 = ['/'] then psegs
            else filterMiddle (bparts ++ psegs)
          let joined := joinChar '/' (resolveSegments segments)
          let path' := if joined = [] then "/" else String.mk joined
          unsplitUrl scheme netloc path'

/-- Model of os.path.dirname (posixpath.dirname): everything up to the
last slash, with trailing slashes stripped unless the head is all
slashes; a path without a slash has an empty dirname. -/
def dirname (p : String) : String :=
  let cs := p.toList
  match cs.reverse.dropWhile (fun c => c ≠ '/') with
  | [] => ""
  | revHead =>
    let head := revHead.reverse
    if head.all (fun c => c = '/') then String.mk head
    else String.mk (revHead.dropWhile (fun c => c = '/')).reverse

/-! ## The document tree

Pages and item fragments arrive from the external HTML-parsing
collaborator (BeautifulSoup) already parsed.  A Node carries its tag
name, its non-class attributes, its class-attribute token list, its own
text and its children. -/

mutual

inductive Node where
  | node (name : String) (attrs : List (String × String))
      (classes : List String) (ownText : String) (children : Forest)

inductive Forest where
  | nil
  | cons (hd : Node) (tl : Forest)

end

/-- Build a forest from a list of trees. -/
def listToForest : List Node → Forest
  | [] => .nil
  | n :: ns => .cons n (listToForest ns)

mutual

def decEqNode : (x y : Node) → Decidable (x = y)
  | .node n a k t cs, .node n1 a1 k1 t1 cs1 =>
    if hn : n = n1 then
      if ha : a = a1 then
        if hk : k = k1 then
          if ht : t = t1 then
            match decEqForest cs cs1 with
            | isTrue hc => isTrue (by rw [hn, ha, hk, ht, hc])
            | isFalse hc => isFalse (fun he => Node.noConfusion he (fun _ _ _ _ h5 => hc h5))
          else isFalse (fun he => Node.noConfusion he (fun _ _ _ h4 _ => ht h4))
        else isFalse (fun he => Node.noConfusion he (fun _ _ h3 _ _ => hk h3))
      else isFalse (fun he => Node.noConfusion he (fun _ h2 _ _ _ => ha h2))
    else isFalse (fun he => Node.noConfusion he (fun h1 _ _ _ _ => hn h1))

def decEqForest : (x y : Forest) → Decidable (x = y)
  | .nil, .nil => isTrue rfl
  | .nil, .cons _ _ => isFalse (fun he => Forest.noConfusion he)
  | .cons _ _, .nil => isFalse (fun he => Forest.noConfusion he)
  | .cons x xs, .cons y ys =>
    match decEqNode x y with
    | isTrue h1 =>
      match decEqForest xs ys with
      | isTrue h2 => isTrue (by rw [h1, h2])
      | isFalse h2 => isFalse (fun he => Forest.noConfusion he (fun _ hb => h2 hb))
    | isFalse h1 => isFalse (fun he => Forest.noConfusion he (fun ha _ => h1 ha))

end

instance : DecidableEq Node := decEqNode

instance : DecidableEq Forest := decEqForest

def Node.name : Node → String
  | .node n _ _ _ _ => n

def Node.attrs : Node → List (String × String)
  | .node _ a _ _ _ => a

def Node.classes : Node → List String
  | .node _ _ k _ _ => k

def Node.children : Node → Forest
  | .node _ _ _ _ cs => cs

/-- tag[key] as an Option: BeautifulSoup raises KeyError when absent. -/
def Node.attr? (n : Node) (key : String) : Option String :=
  (n.attrs.find? (fun kv => kv.1 = key)).map (fun kv => kv.2)

mutual

/-- BeautifulSoup tag.text: all strings of the subtree, concatenated. -/
def nodeText : Node → String
  | .node _ _ _ t cs => t ++ forestText cs

/-- The concatenated text of a forest. -/
def forestText : Forest → String
  | .nil => ""
  | .cons c cs => nodeText c ++ forestText cs

end

mutual

/-- First node of a subtree (the root included) satisfying p, in
document (pre-)order. -/
def findNode (p : Node → Bool) : Node → Option Node
  | .node n a k t cs =>
    if p (.node n a k t cs) then some (.node n a k t cs)
    else findForest p cs

/-- First node of a forest satisfying p, in document (pre-)order. -/
def findForest (p : Node → Bool) : Forest → Option Node
  | .nil => none
  | .cons c cs =>
    match findNode p c with
    | some r => some r
    | none => findForest p cs

end

mutual

/-- All nodes of a subtree (the root included) satisfying p. -/
def findAllNode (p : Node → Bool) : Node → List Node
  | .node n a k t cs =>
    (if p (.node n a k t cs) then [Node.node n a k t cs] else []) ++ findAllForest p cs

/-- All nodes of a forest satisfying p, in document (pre-)order. -/
def findAllForest (p : Node → Bool) : Forest → List Node
  | .nil => []
  | .cons c cs => findAllNode p c ++ findAllForest p cs

end

/-- BeautifulSoup tag.find(...): first matching strict descendant. -/
def Node.find (n : Node) (p : Node → Bool) : Option Node :=
  findForest p n.children

/-- BeautifulSoup tag.find_all(...): all matching strict descendants. -/
def Node.findAll (n : Node) (p : Node → Bool) : List Node :=
  findAllForest p n.children

/-! ## The record extractor (BookScraper._extract_book_data)

The Python rating value is heterogeneous: an int 1..5 from the lookup
table, or the fallback string written 'N/A' in the source — the code's
spelling of the unknown sentinel. -/

inductive RatingVal where
  | num (n : Nat)
  | na
deriving DecidableEq, Repr

/-- rating_map.get(cls, 'N/A'): the fixed word-to-number lookup with the
unknown sentinel (spelled 'N/A' in the source) as default. -/
def rating_map_get (s : String) : RatingVal :=
  if s = "One" then .num 1
  else if s = "Two" then .num 2
  else if s = "Three" then .num 3
  else if s = "Four" then .num 4
  else if s = "Five" then .num 5
  else .na

/-- One output row, the dict built by _extract_book_data in its
insertion order: title, price, rating, availability, url. -/
structure Record where
  title : String
  price : String
  rating : RatingVal
  availability : String
  url : String
deriving DecidableEq, Repr

/-- book.h3.a: the first anchor inside the first heading; None (and a
raised AttributeError at the use site) when either is missing. -/
def heading_anchor (book : Node) : Option Node :=
  match book.find (fun n => n.name == "h3") with
  | none => none
  | some h3 => h3.find (fun n => n.name == "a")

/-- book.find('p', class_='price_color'). -/
def price_el (book : Node) : Option Node :=
  book.find (fun n => n.name == "p" && n.classes.contains "price_color")

/-- book.find('p', class_='star-rating'). -/
def star_el (book : Node) : Option Node :=
  book.find (fun n => n.name == "p" && n.classes.contains "star-rating")

/-- book.find('p', class_='star-rating')['class'][1]: the second class
token of the star-rating element, when it exists. -/
def star_token (book : Node) : Option String :=
  (star_el book).bind (fun el => el.classes.get? 1)

/-- book.find('p', class_='instock availability'): a multi-word class_
string matches the class attribute exactly in BeautifulSoup. -/
def avail_el (book : Node) : Option Node :=
  book.find (fun n => n.name == "p" && n.classes == ["instock", "availability"])

/-- book.h3.a['title']. -/
def headingTitle (book : Node) : Option String :=
  (heading_anchor book).bind (fun a => a.attr? "title")

/-- book.h3.a['href']. -/
def headingHref (book : Node) : Option String :=
  (heading_anchor book).bind (fun a => a.attr? "href")

/-- BookScraper._extract_book_data: the whole body sits in one
try/except, so any failing step (missing heading/anchor/attribute,
missing price, star-rating or availability element, short class list)
aborts the item and yields the empty dict, modelled as none.
base_url is the constructor argument self.base_url. -/
def extract_book_data (base_url : String) (book : Node) : Option Record :=
  match heading_anchor book with
  | none => none
  | some a =>
    match a.attr? "title" with
    | none => none
    | some title =>
      match price_el book with
      | none => none
      | some priceEl =>
        let price := pyStrip (nodeText priceEl)
        match star_el book with
        | none => none
        | some ratingEl =>
          match ratingEl.classes.get? 1 with
          | none => none
          | some ratingCls =>
            let rating := rating_map_get ratingCls
            match avail_el book with
            | none => none
            | some availEl =>
              let availability := pyStrip (nodeText availEl)
              match heading_anchor book with
              | none => none
              | some a2 =>
                match a2.attr? "href" with
                | none => none
                | some relative_url =>
                  let book_url := urljoin base_url relative_url
                  some ⟨title, price, rating, availability, book_url⟩

/-! ## The page fetcher (BookScraper._get_page_content) -/

/-- What the network does for one URL: a parsed successful response, an
HTTP error status (raise_for_status raises), or a network-level
exception.  All code below is parametric in this environment. -/
inductive HttpResult where
  | ok (page : Node)
  | httpError (status : Nat)
  | netError
deriving DecidableEq

def HttpResult.isOk : HttpResult → Bool
  | .ok _ => true
  | _ => false

/-- BookScraper._get_page_content: on success, sleep one politeness
unit, then return the parsed page; on a raised RequestException, log and
return None with no sleep.  The second component counts the time.sleep(1)
calls performed by this call. -/
def get_page_content (env : String → HttpResult) (url : String) :
    Option Node × Nat :=
  match env url with
  | .ok page => (some page, 1)
  | _ => (none, 0)

/-! ## The catalog walker (BookScraper.scrape_books) and the CSV sink -/

/-- soup.find_all('article', class_='product_pod'). -/
def page_books (soup : Node) : List Node :=
  soup.findAll (fun n => n.name == "article" && n.classes.contains "product_pod")

/-- The per-page extraction loop: extract each item, append the result
when it is a non-empty dict (a falsy {} is skipped). -/
def extract_page (base_url : String) (soup : Node) : List Record :=
  (page_books soup).filterMap (extract_book_data base_url)

/-- Outcome of the next-page block at the end of one loop iteration. -/
inductive NextStep where
  | stop
  | go (url : String)
  | crash
deriving DecidableEq

/-- The next-page block: soup.find('li', class_='next'); when present,
next_button.a['href'] resolved against the CURRENT page URL.  A next
button without an anchor or href raises (crash), caught only by the
try/except around the whole walk. -/
def page_next (soup : Node) (current_url : String) : NextStep :=
  match soup.find (fun n => n.name == "li" && n.classes.contains "next") with
  | none => .stop
  | some li =>
    match li.find (fun n => n.name == "a") with
    | none => .crash
    | some a =>
      match a.attr? "href" with
      | none => .crash
      | some rel => .go (urljoin current_url rel)

/-- Observable outcome of the while loop: the accumulated records, the
URLs handed to _get_page_content in order, the politeness sleeps
performed, and whether the loop body raised. -/
structure WalkResult where
  books : List Record
  visited : List String
  delays : Nat
  crashed : Bool
deriving DecidableEq

/-- The while loop of scrape_books, with explicit fuel (none = fuel
exhausted; the Python loop has no cycle guard).  Mirrors: test
current_url for truthiness, fetch, break when the fetch failed, extract
all items, then the next-page block. -/
def scrape_loop (env : String → HttpResult) (base_url : String) :
    Nat → String → List Record → List String → Nat → Option WalkResult
  | 0, _, _, _, _ => none
  | fuel + 1, url, acc, vis, d =>
    if url = "" then some ⟨acc, vis, d, false⟩
    else
      match get_page_content env url with
      | (none, dd) => some ⟨acc, vis ++ [url], d + dd, false⟩
      | (some soup, dd) =>
        let acc1 := acc ++ extract_page base_url soup
        match page_next soup url with
        | .stop => some ⟨acc1, vis ++ [url], d + dd, false⟩
        | .crash => some ⟨acc1, vis ++ [url], d + dd, true⟩
        | .go next => scrape_loop env base_url fuel next acc1 (vis ++ [url]) (d + dd)

/-- The CSV file as written: DictWriter header (absent when there was no
data) and one row per record. -/
structure CsvFile where
  header : Option (List String)
  rows : List (List String)
deriving DecidableEq

/-- How a rating value prints in a CSV cell. -/
def ratingCell : RatingVal → String
  | .num n => toString n
  | .na => "N/A"

/-- One CSV row, in the fieldnames order data[0].keys(). -/
def record_row (r : Record) : List String :=
  [r.title, r.price, ratingCell r.rating, r.availability, r.url]

/-- BookScraper._save_to_csv: makedirs(dirname(filename), exist_ok=True)
raises FileNotFoundError when the dirname is empty; writeOk injects any
other OSError of the open/write.  Every exception is caught and logged
inside this function, so it never propagates: the result is none when no
file was produced, some file when the CSV was written (overwriting any
previous file at that path). -/
def save_to_csv (writeOk : Bool) (data : List Record) (filename : String) :
    Option CsvFile :=
  if dirname filename = "" then none
  else if writeOk = false then none
  else some
    { header := if data = [] then none
        else some ["title", "price", "rating", "availability", "url"]
      rows := data.map record_row }

/-- Observable outcome of one scrape_books call. -/
structure ScrapeResult where
  books : List Record
  csv : Option CsvFile
  visited : List String
  delays : Nat
deriving DecidableEq

/-- BookScraper.scrape_books: run the walk from current_url = base_url;
if the loop body raised, the outer except returns [] and skips the save;
otherwise save the accumulator to CSV and return it.  none = fuel
exhausted (the unguarded Python loop would still be running). -/
def scrape_books (env : String → HttpResult) (base_url : String)
    (writeOk : Bool) (output_file : String) (fuel : Nat) :
    Option ScrapeResult :=
  match scrape_loop env base_url fuel base_url [] [] 0 with
  | none => none
  | some w =>
    if w.crashed then some ⟨[], none, w.visited, w.delays⟩
    else some ⟨w.books, save_to_csv writeOk w.books output_file, w.visited, w.delays⟩

/-! ## Chains of pages

A chain pairs each page URL with the page the environment serves for
it.  chainOk says every fetch succeeds, each page's next-page block
advances to the following URL, and the last page has no next link.
failChain says the same for a prefix of pages and then a URL whose
fetch fails.  URLs are required non-empty because an empty (falsy)
current_url would end the Python while loop before any fetch. -/

/-- The URL the walk starts from: the first chain URL, or the failing
URL when the chain of successful pages is empty. -/
def chainStart (chain : List (String × Node)) (ufail : String) : String :=
  ((chain.head?).map Prod.fst).getD ufail

/-- All records extracted from the chain's pages, page order first,
in-page document order second. -/
def chainBooks (base : String) : List (String × Node) → List Record
  | [] => []
  | (_, p) :: rest => extract_page base p ++ chainBooks base rest

/-- The chain's URLs in order. -/
def chainUrls : List (String × Node) → List String
  | [] => []
  | (u, _) :: rest => u :: chainUrls rest

/-- A finite acyclic chain of pages in which every fetch succeeds and
only the last page has no next-page link. -/
def chainOk (env : String → HttpResult) : List (String × Node) → Prop
  | [] => True
  | (u, p) :: rest =>
    u ≠ "" ∧ env u = .ok p ∧
      (match rest.head? with
       | none => page_next p u = .stop
       | some q => page_next p u = .go q.1) ∧
      chainOk env rest

/-- A chain of successful pages whose last next-link leads to ufail,
where the fetch fails (non-success status or network error). -/
def failChain (env : String → HttpResult) (ufail : String) :
    List (String × Node) → Prop
  | [] => ufail ≠ "" ∧ ∀ p, env ufail ≠ .ok p
  | (u, p) :: rest =>
    u ≠ "" ∧ env u = .ok p ∧
      page_next p u = .go (chainStart rest ufail) ∧
      failChain env ufail rest

/-! ## Concrete fixtures (inputs for witnesses and counterexamples) -/

/-- A catalog item fragment with all sub-fields present, shaped like the
site's markup. -/
def mkBook (title href price ratingTok avail : String) : Node :=
  Node.node "article" [] ["product_pod"] "" (listToForest
    [Node.node "h3" [] [] "" (listToForest
      [Node.node "a" [("title", title), ("href", href)] [] "" .nil]),
     Node.node "div" [] ["product_price"] "" (listToForest
      [Node.node "p" [] ["price_color"] price .nil]),
     Node.node "p" [] ["star-rating", ratingTok] "" .nil,
     Node.node "p" [] ["instock", "availability"] avail .nil])

/-- A catalog page holding some items and, optionally, a next-page
pager entry with the given relative link. -/
def mkPage (books : List Node) (nextRel : Option String) : Node :=
  Node.node "html" [] [] "" (listToForest
    [Node.node "body" [] [] "" (listToForest
      (books ++
        match nextRel with
        | some rel =>
          [Node.node "ul" [] ["pager"] "" (listToForest
            [Node.node "li" [] ["next"] "" (listToForest
              [Node.node "a" [("href", rel)] [] "" .nil])])]
        | none => []))])

/-- An item with heading, anchor, title, rating and availability but no
price element. -/
def bookNoPrice : Node :=
  Node.node "article" [] ["product_pod"] "" (listToForest
    [Node.node "h3" [] [] "" (listToForest
      [Node.node "a" [("title", "A Book"), ("href", "b.html")] [] "" .nil]),
     Node.node "p" [] ["star-rating", "Three"] "" .nil,
     Node.node "p" [] ["instock", "availability"] "In stock" .nil])

/-- Seed page: no items, next link into the catalogue subdirectory. -/
def pageC2a : Node := mkPage [] (some "catalogue/page-2.html")

/-- Second page, living under /catalogue/, with one item whose link is
relative to that directory. -/
def pageC2b : Node := mkPage [mkBook "B" "x.html" "£5.00" "Three" "In stock"] none

def envC2 : String → HttpResult := fun u =>
  if u = "https://e.com/" then .ok pageC2a
  else if u = "https://e.com/catalogue/page-2.html" then .ok pageC2b
  else .netError

def bookC2w : Node := mkBook "W" "cat/w.html" "£2.00" "Four" "In stock"

/-- An item whose heading-anchor title attribute is the empty string. -/
def envC3 : String → HttpResult := fun u =>
  if u = "https://e.com/" then .ok (mkPage [mkBook "" "b.html" "£1.00" "Two" "In stock"] none)
  else .netError

def bookC3w : Node := mkBook "T" "t.html" "£3.00" "Five" "In stock"

def pageC4a : Node := mkPage [mkBook "B1" "b1.html" "£1.00" "Three" "In stock"] (some "page-2.html")

def pageC4b : Node := mkPage [mkBook "B2" "b2.html" "£2.00" "Two" "In stock"] none

def envC4 : String → HttpResult := fun u =>
  if u = "https://e.com/" then .ok pageC4a
  else if u = "https://e.com/page-2.html" then .ok pageC4b
  else .netError

def chain4 : List (String × Node) :=
  [("https://e.com/", pageC4a), ("https://e.com/page-2.html", pageC4b)]

def pageC5 : Node := mkPage [mkBook "P1" "p1.html" "£1.00" "One" "In stock"] (some "page-2.html")

/-- Page 1 succeeds; its next link points at a URL whose fetch returns a
non-success status. -/
def envC5 : String → HttpResult := fun u =>
  if u = "https://e.com/" then .ok pageC5
  else if u = "https://e.com/page-2.html" then .httpError 404
  else .netError

def chain5 : List (String × Node) := [("https://e.com/", pageC5)]

/-- An item whose star-rating second class token is outside the
One..Five vocabulary. -/
def bookC6 : Node := mkBook "R" "r.html" "£1.00" "Zero" "In stock"

def envC7 : String → HttpResult := fun u =>
  if u = "https://a.com/" then .ok (mkPage [] none) else .netError

def envC8 : String → HttpResult := fun u =>
  if u = "https://e.com/" then .ok (mkPage [mkBook "B" "b.html" "£1.00" "Two" "In stock"] none)
  else .netError

/-- The outcome of the envC8 walk with a writable data/ path. -/
def outC8 : ScrapeResult :=
  ⟨[⟨"B", "£1.00", .num 2, "In stock", "https://e.com/b.html"⟩],
   some ⟨some ["title", "price", "rating", "availability", "url"],
         [["B", "£1.00", "2", "In stock", "https://e.com/b.html"]]⟩,
   ["https://e.com/"], 1⟩

/-- The outcome of the envC8 walk when no CSV file gets produced
(failing writer, or bare output filename). -/
def outNoCsv : ScrapeResult :=
  ⟨[⟨"B", "£1.00", .num 2, "In stock", "https://e.com/b.html"⟩],
   none, ["https://e.com/"], 1⟩

/-- The outcome of the envC7 walk: one empty page, no next link. -/
def outC7 : ScrapeResult :=
  ⟨[], some ⟨none, []⟩, ["https://a.com/"], 1⟩

example :
    extract_book_data "https://e.com/"
      (mkBook "A Light in the Attic" "cat/a.html" " £51.77 " "Three" " In stock ")
    = some ⟨"A Light in the Attic", "£51.77", .num 3, "In stock",
            "https://e.com/cat/a.html"⟩ := by decide

example : urljoin "https://example.com/catalog/page-2.html" "../item/42.html"
    = "https://example.com/item/42.html" := by decide
example : urljoin "https://e.com/" "x.html" = "https://e.com/x.html" := by decide
example : urljoin "https://e.com/" "catalogue/page-2.html"
    = "https://e.com/catalogue/page-2.html" := by decide
example : urljoin "https://e.com/catalogue/page-2.html" "x.html"
    = "https://e.com/catalogue/x.html" := by decide
example : dirname "books.csv" = "" := by decide
example : dirname "data/books.csv" = "data" := by decide
example : dirname "/books.csv" = "/" := by decide
example : pyStrip "  In stock \n" = "In stock" := by decide

/-! ## Walk lemmas -/

theorem scrape_loop_chain (env : String → HttpResult) (base : String)
    (rest : List (String × Node)) :
    ∀ (u : String) (p : Node) (fuel : Nat) (acc : List Record)
      (vis : List String) (d : Nat),
      chainOk env ((u, p) :: rest) → rest.length + 1 ≤ fuel →
      scrape_loop env base fuel u acc vis d =
        some ⟨acc ++ chainBooks base ((u, p) :: rest),
              vis ++ chainUrls ((u, p) :: rest), d + (rest.length + 1), false⟩ := by
  induction rest with
  | nil =>
    intro u p fuel acc vis d hc hf
    obtain ⟨hu, henv, hnext, -⟩ := hc
    replace hnext : page_next p u = .stop := hnext
    match fuel, hf with
    | f + 1, _ =>
      have hget : get_page_content env u = (some p, 1) := by
        simp [get_page_content, henv]
      simp only [scrape_loop, if_neg hu, hget, hnext]
      simp [chainBooks, chainUrls]
  | cons q rest' ih =>
    obtain ⟨u2, p2⟩ := q
    intro u p fuel acc vis d hc hf
    obtain ⟨hu, henv, hnext, hrest⟩ := hc
    replace hnext : page_next p u = .go u2 := hnext
    match fuel, hf with
    | f + 1, hf =>
      have hget : get_page_content env u = (some p, 1) := by
        simp [get_page_content, henv]
      have hlen : rest'.length + 1 ≤ f := by
        simp only [List.length_cons] at hf
        omega
      simp only [scrape_loop, if_neg hu, hget, hnext]
      rw [ih u2 p2 f (acc ++ extract_page base p) (vis ++ [u]) (d + 1) hrest hlen]
      simp [chainBooks, chainUrls, List.append_assoc]
      omega

theorem scrape_loop_failchain (env : String → HttpResult) (base uf : String)
    (chain : List (String × Node)) :
    ∀ (fuel : Nat) (acc : List Record) (vis : List String) (d : Nat),
      failChain env uf chain → chain.length + 1 ≤ fuel →
      scrape_loop env base fuel (chainStart chain uf) acc vis d =
        some ⟨acc ++ chainBooks base chain,
              vis ++ (chainUrls chain ++ [uf]), d + chain.length, false⟩ := by
  induction chain with
  | nil =>
    intro fuel acc vis d hc hf
    obtain ⟨hu, henv⟩ := hc
    match fuel, hf with
    | f + 1, _ =>
      have hstart : chainStart [] uf = uf := rfl
      rw [hstart]
      have hget : get_page_content env uf = (none, 0) := by
        cases he : env uf with
        | ok p => exact absurd he (henv p)
        | httpError s => simp [get_page_content, he]
        | netError => simp [get_page_content, he]
      simp only [scrape_loop, if_neg hu, hget]
      simp [chainBooks, chainUrls]
  | cons q rest ih =>
    obtain ⟨u2, p2⟩ := q
    intro fuel acc vis d hc hf
    obtain ⟨hu, henv, hnext, hrest⟩ := hc
    match fuel, hf with
    | f + 1, hf =>
      have hget : get_page_content env u2 = (some p2, 1) := by
        simp [get_page_content, henv]
      have hlen : rest.length + 1 ≤ f := by
        simp only [List.length_cons] at hf
        omega
      have hstart : chainStart ((u2, p2) :: rest) uf = u2 := rfl
      rw [hstart]
      simp only [scrape_loop, if_neg hu, hget, hnext]
      rw [ih f (acc ++ extract_page base p2) (vis ++ [u2]) (d + 1) hrest hlen]
      simp [chainBooks, chainUrls, List.append_assoc]
      omega

theorem scrape_loop_delays (env : String → HttpResult) (base : String) :
    ∀ (fuel : Nat) (url : String) (acc : List Record) (vis : List String)
      (d : Nat) (r : WalkResult),
      scrape_loop env base fuel url acc vis d = some r →
      ∃ newly, r.visited = vis ++ newly ∧
        r.delays = d + newly.countP (fun v => (env v).isOk) := by
  intro fuel
  induction fuel with
  | zero => intro url acc vis d r h; exact absurd h (by simp [scrape_loop])
  | succ f ih =>
    intro url acc vis d r h
    by_cases hu : url = ""
    · rw [hu] at h
      replace h : some (⟨acc, vis, d, false⟩ : WalkResult) = some r := h
      cases h
      exact ⟨[], by simp, by simp⟩
    · cases he : env url with
      | ok p =>
        have hget : get_page_content env url = (some p, 1) := by
          simp [get_page_content, he]
        simp only [scrape_loop, if_neg hu, hget] at h
        cases hn : page_next p url with
        | stop =>
          rw [hn] at h
          replace h :
              some (⟨acc ++ extract_page base p, vis ++ [url], d + 1, false⟩ :
                WalkResult) = some r := h
          cases h
          exact ⟨[url], by simp, by
            simp [List.countP_cons, List.countP_nil, he, HttpResult.isOk]⟩
        | crash =>
          rw [hn] at h
          replace h :
              some (⟨acc ++ extract_page base p, vis ++ [url], d + 1, true⟩ :
                WalkResult) = some r := h
          cases h
          exact ⟨[url], by simp, by
            simp [List.countP_cons, List.countP_nil, he, HttpResult.isOk]⟩
        | go next =>
          rw [hn] at h
          replace h :
              scrape_loop env base f next (acc ++ extract_page base p)
                (vis ++ [url]) (d + 1) = some r := h
          obtain ⟨newly, hv, hd⟩ := ih next (acc ++ extract_page base p)
            (vis ++ [url]) (d + 1) r h
          refine ⟨url :: newly, by simp [hv], ?_⟩
          rw [hd]
          simp [List.countP_cons, he, HttpResult.isOk]
          omega
      | httpError s =>
        have hget : get_page_content env url = (none, 0) := by
          simp [get_page_content, he]
        simp only [scrape_loop, if_neg hu, hget] at h
        replace h : some (⟨acc, vis ++ [url], d + 0, false⟩ : WalkResult) = some r := h
        cases h
        exact ⟨[url], by simp, by
          simp [List.countP_cons, List.countP_nil, he, HttpResult.isOk]⟩
      | netError =>
        have hget : get_page_content env url = (none, 0) := by
          simp [get_page_content, he]
        simp only [scrape_loop, if_neg hu, hget] at h
        replace h : some (⟨acc, vis ++ [url], d + 0, false⟩ : WalkResult) = some r := h
        cases h
        exact ⟨[url], by simp, by
          simp [List.countP_cons, List.countP_nil, he, HttpResult.isOk]⟩

/-! ## Extractor lemmas -/

theorem extract_book_data_eq_some (base : String) (book : Node) (r : Record)
    (h : extract_book_data base book = some r) :
    ∃ a title priceEl ratingEl ratingCls availEl rel,
      heading_anchor book = some a ∧ a.attr? "title" = some title ∧
      price_el book = some priceEl ∧ star_el book = some ratingEl ∧
      ratingEl.classes.get? 1 = some ratingCls ∧ avail_el book = some availEl ∧
      a.attr? "href" = some rel ∧
      r = ⟨title, pyStrip (nodeText priceEl), rating_map_get ratingCls,
           pyStrip (nodeText availEl), urljoin base rel⟩ := by
  unfold extract_book_data at h
  split at h
  · exact absurd h (by simp)
  · rename_i a ha
    split at h
    · exact absurd h (by simp)
    · rename_i title htitle
      split at h
      · exact absurd h (by simp)
      · rename_i priceEl hprice
        split at h
        · exact absurd h (by simp)
        · rename_i ratingEl hstar
          split at h
          · exact absurd h (by simp)
          · rename_i ratingCls hcls
            split at h
            · exact absurd h (by simp)
            · rename_i availEl havail
              split at h
              · exact absurd h (by simp)
              · rename_i a2 ha2
                split at h
                · exact absurd h (by simp)
                · rename_i rel hrel
                  injection ha2 with ha2
                  subst ha2
                  injection h with h
                  exact ⟨a, title, priceEl, ratingEl, ratingCls, availEl, rel,
                    ha, htitle, hprice, hstar, hcls, havail, hrel, h.symm⟩

/-- C1 (amended): for every item node whose price element is missing,
the whole extraction fails — the single try/except around
_extract_book_data turns the AttributeError from the missing price
element into the empty dict, so the item is skipped; no record with a
placeholder price is produced. -/
theorem extract_missing_price_fails (base : String) (book : Node)
    (h : price_el book = none) : extract_book_data base book = none := by
  unfold extract_book_data
  split
  · rfl
  · split
    · rfl
    · simp [h]

/-- C2 (amended): the url field of every extracted Record is obtained by
resolving the item's heading-anchor link against the constructor seed
base_url — _extract_book_data always joins against self.base_url, never
against the URL of the page currently being scraped. -/
theorem extract_url_resolved_against_seed (base : String) (book : Node)
    (r : Record) (h : extract_book_data base book = some r) :
    ∃ rel, headingHref book = some rel ∧ r.url = urljoin base rel := by
  obtain ⟨a, title, priceEl, ratingEl, ratingCls, availEl, rel,
    ha, -, -, -, -, -, hrel, hr⟩ := extract_book_data_eq_some base book r h
  refine ⟨rel, ?_, by rw [hr]⟩
  simp [headingHref, ha, hrel]

/-- C3 (amended): every emitted Record carries all five fields (its CSV
row has exactly the five cells title, price, rating, availability, url),
and its title equals the heading anchor's title attribute verbatim —
which may be the empty string, so no non-emptiness guarantee holds. -/
theorem emitted_record_fields (base : String) (book : Node) (r : Record)
    (h : extract_book_data base book = some r) :
    headingTitle book = some r.title ∧ (record_row r).length = 5 := by
  obtain ⟨a, title, priceEl, ratingEl, ratingCls, availEl, rel,
    ha, htitle, -, -, -, -, -, hr⟩ := extract_book_data_eq_some base book r h
  constructor
  · rw [hr]
    simp [headingTitle, ha, htitle]
  · simp [record_row]

/-- C6: the rating mapping is total over the fixed vocabulary — the
words One..Five map to 1..5, any other token maps to the unknown
sentinel (spelled 'N/A' in the source), and an item whose star-rating
element carries a second class token is never failed because of that
token's value: a successful extraction's rating is exactly the lookup
of the token. -/
theorem rating_mapping_total :
    (rating_map_get "One" = .num 1 ∧ rating_map_get "Two" = .num 2 ∧
     rating_map_get "Three" = .num 3 ∧ rating_map_get "Four" = .num 4 ∧
     rating_map_get "Five" = .num 5) ∧
    (∀ tok, tok ∉ (["One", "Two", "Three", "Four", "Five"] : List String) →
      rating_map_get tok = .na) ∧
    (∀ base book r tok, star_token book = some tok →
      extract_book_data base book = some r → r.rating = rating_map_get tok) := by
  refine ⟨⟨by decide, by decide, by decide, by decide, by decide⟩, ?_, ?_⟩
  · intro tok htok
    simp only [List.mem_cons, List.not_mem_nil, or_false, not_or] at htok
    obtain ⟨h1, h2, h3, h4, h5⟩ := htok
    simp [rating_map_get, h1, h2, h3, h4, h5]
  · intro base book r tok hst hr
    obtain ⟨a, title, priceEl, ratingEl, ratingCls, availEl, rel,
      -, -, -, hstar, hcls, -, -, hrec⟩ := extract_book_data_eq_some base book r hr
    have htok : star_token book = some ratingCls := by
      simp only [star_token, hstar, Option.some_bind]
      exact hcls
    rw [hst] at htok
    injection htok with htok
    rw [hrec, htok]

/-- C4: given a finite chain of N pages starting at base_url in which
every fetch succeeds and only the last page has no next-page link, the
walk terminates after fetching exactly the N chain URLs in order, with
the record list being the page-by-page concatenation of each page's
extracted records (in-page document order preserved). -/
theorem walk_visits_chain_and_concatenates (env : String → HttpResult)
    (base output_file : String) (writeOk : Bool) (p : Node)
    (rest : List (String × Node)) (fuel : Nat)
    (hc : chainOk env ((base, p) :: rest)) (hf : rest.length + 1 ≤ fuel) :
    scrape_books env base writeOk output_file fuel =
      some ⟨chainBooks base ((base, p) :: rest),
            save_to_csv writeOk (chainBooks base ((base, p) :: rest)) output_file,
            chainUrls ((base, p) :: rest), rest.length + 1⟩ := by
  unfold scrape_books
  rw [scrape_loop_chain env base rest base p fuel [] [] 0 hc hf]
  simp

/-- C5: when the fetch of the page after a chain of successful pages
fails (non-success status or network error), the walk attempts that URL,
visits nothing after it, terminates without retrying, and the partial
record list accumulated from the successful pages is both returned and
handed to the CSV sink. -/
theorem fetch_failure_truncates_walk (env : String → HttpResult)
    (base output_file uf : String) (writeOk : Bool)
    (chain : List (String × Node)) (fuel : Nat)
    (hc : failChain env uf chain) (hstart : chainStart chain uf = base)
    (hf : chain.length + 1 ≤ fuel) :
    scrape_books env base writeOk output_file fuel =
      some ⟨chainBooks base chain,
            save_to_csv writeOk (chainBooks base chain) output_file,
            chainUrls chain ++ [uf], chain.length⟩ := by
  subst hstart
  unfold scrape_books
  rw [scrape_loop_failchain env (chainStart chain uf) uf chain fuel [] [] 0 hc hf]
  simp

/-- C7: the politeness delay of _get_page_content is performed exactly
when the fetch succeeded — one sleep unit per successful fetch, none
after a failure — and over a whole walk the sleeps performed equal the
number of visited URLs whose fetch succeeded. -/
theorem politeness_delay_on_success_only (env : String → HttpResult)
    (url : String) :
    ((get_page_content env url).2 = 1 ↔ (env url).isOk = true) ∧
    ((get_page_content env url).2 = 0 ↔ (env url).isOk = false) ∧
    (∀ base writeOk output_file fuel r,
      scrape_books env base writeOk output_file fuel = some r →
      r.delays = r.visited.countP (fun v => (env v).isOk)) := by
  refine ⟨?_, ?_, ?_⟩
  · cases he : env url <;> simp [get_page_content, he, HttpResult.isOk]
  · cases he : env url <;> simp [get_page_content, he, HttpResult.isOk]
  · intro base writeOk output_file fuel r h
    unfold scrape_books at h
    cases hw : scrape_loop env base fuel base [] [] 0 with
    | none => rw [hw] at h; exact absurd h (by simp)
    | some w =>
      rw [hw] at h
      dsimp only at h
      obtain ⟨newly, hv, hd⟩ := scrape_loop_delays env base fuel base [] [] 0 w hw
      by_cases hc : w.crashed
      · rw [if_pos hc] at h
        injection h with h
        rw [← h]
        show w.delays = List.countP (fun v => (env v).isOk) w.visited
        rw [hd, hv]
        simp
      · rw [if_neg hc] at h
        injection h with h
        rw [← h]
        show w.delays = List.countP (fun v => (env v).isOk) w.visited
        rw [hd, hv]
        simp

/-- C8 (amended): for every completed (non-crashed) walk whose output
path has a non-empty parent directory and which scraped at least one
record, the CSV sink writes the file once at the end, with the fixed
header order title, price, rating, availability, url and one row per
record; with a bare filename the directory-creation step raises and
nothing is written, and with no records the file is written without a
header row. -/
theorem csv_written_once_with_header (env : String → HttpResult)
    (base output_file : String) (fuel : Nat) (o : ScrapeResult)
    (h : scrape_books env base true output_file fuel = some o)
    (hdir : dirname output_file ≠ "") (hbooks : o.books ≠ []) :
    o.csv = some ⟨some ["title", "price", "rating", "availability", "url"],
                  o.books.map record_row⟩ := by
  unfold scrape_books at h
  cases hw : scrape_loop env base fuel base [] [] 0 with
  | none => rw [hw] at h; exact absurd h (by simp)
  | some w =>
    rw [hw] at h
    dsimp only at h
    by_cases hc : w.crashed
    · rw [if_pos hc] at h
      injection h with h
      rw [← h] at hbooks
      exact absurd rfl hbooks
    · rw [if_neg hc] at h
      injection h with h
      rw [← h] at hbooks ⊢
      replace hbooks : w.books ≠ [] := hbooks
      show save_to_csv true w.books output_file = _
      unfold save_to_csv
      rw [if_neg hdir]
      simp [hbooks]

/-- The CSV saver catches its own exceptions: an injected write failure
produces no file and raises nothing. -/
theorem save_to_csv_false (data : List Record) (filename : String) :
    save_to_csv false data filename = none := by
  unfold save_to_csv
  split
  · rfl
  · rfl

/-- C9: a failing CSV write is absorbed inside _save_to_csv (no
exception escapes the top-level call, which stays a total function of
the environment), no file is produced, and the caller receives exactly
the record list it would have received had the write succeeded. -/
theorem csv_failure_preserves_result (env : String → HttpResult)
    (base output_file : String) (fuel : Nat) :
    ((scrape_books env base false output_file fuel).map ScrapeResult.books =
      (scrape_books env base true output_file fuel).map ScrapeResult.books) ∧
    (∀ o, scrape_books env base false output_file fuel = some o →
      o.csv = none) := by
  constructor
  · unfold scrape_books
    cases scrape_loop env base fuel base [] [] 0 with
    | none => rfl
    | some w =>
      dsimp only
      by_cases hc : w.crashed
      · rw [if_pos hc, if_pos hc]
      · rw [if_neg hc, if_neg hc]
        simp
  · intro o h
    unfold scrape_books at h
    cases hw : scrape_loop env base fuel base [] [] 0 with
    | none => rw [hw] at h; exact absurd h (by simp)
    | some w =>
      rw [hw] at h
      dsimp only at h
      by_cases hc : w.crashed
      · rw [if_pos hc] at h
        injection h with h
        rw [← h]
      · rw [if_neg hc] at h
        injection h with h
        rw [← h]
        show save_to_csv false w.books output_file = none
        exact save_to_csv_false _ _

/-- C10: when the output filename has no directory component (dirname
empty, as with the default books.csv), makedirs raises, the exception is
caught inside the saver, no CSV file is produced at all, and the walk
still returns the same record list as with any other output path or a
succeeding writer. -/
theorem bare_filename_skips_csv (env : String → HttpResult)
    (base file1 file2 : String) (w1 w2 : Bool) (fuel : Nat) :
    (dirname file1 = "" →
      ∀ o, scrape_books env base w1 file1 fuel = some o → o.csv = none) ∧
    ((scrape_books env base w1 file1 fuel).map ScrapeResult.books =
      (scrape_books env base w2 file2 fuel).map ScrapeResult.books) := by
  constructor
  · intro hd o h
    unfold scrape_books at h
    cases hw : scrape_loop env base fuel base [] [] 0 with
    | none => rw [hw] at h; exact absurd h (by simp)
    | some w =>
      rw [hw] at h
      dsimp only at h
      by_cases hc : w.crashed
      · rw [if_pos hc] at h
        injection h with h
        rw [← h]
      · rw [if_neg hc] at h
        injection h with h
        rw [← h]
        show save_to_csv w1 w.books file1 = none
        unfold save_to_csv
        rw [if_pos hd]
  · unfold scrape_books
    cases scrape_loop env base fuel base [] [] 0 with
    | none => rfl
    | some w =>
      dsimp only
      by_cases hc : w.crashed
      · rw [if_pos hc, if_pos hc]
      · rw [if_neg hc, if_neg hc]
        simp

/-! ## Witnesses and counterexamples -/

/-- C1 counterexample: an item with a title but no price element does
not yield a Record with a placeholder price — the whole extraction
fails and returns the empty dict. -/
theorem extract_missing_price_counterexample :
    headingTitle bookNoPrice = some "A Book" ∧ price_el bookNoPrice = none ∧
    extract_book_data "https://e.com/" bookNoPrice = none := by decide

/-- C1 witness: the amended theorem applied to the concrete item. -/
theorem extract_missing_price_fails_witness :
    price_el bookNoPrice = none ∧
    extract_book_data "https://e.com/" bookNoPrice = none :=
  ⟨by decide, extract_missing_price_fails "https://e.com/" bookNoPrice (by decide)⟩

/-- C2 counterexample: the record scraped from page 2 of the envC2 walk
has url resolved against the seed base URL, not against the URL of the
page it was found on. -/
theorem extract_url_current_page_counterexample :
    (scrape_books envC2 "https://e.com/" true "data/books.csv" 3).map
        (fun o => (o.books.map Record.url, o.visited)) =
      some (["https://e.com/x.html"],
            ["https://e.com/", "https://e.com/catalogue/page-2.html"]) ∧
    urljoin "https://e.com/catalogue/page-2.html" "x.html" =
      "https://e.com/catalogue/x.html" ∧
    ("https://e.com/x.html" : String) ≠ "https://e.com/catalogue/x.html" := by
  refine ⟨by decide, by decide, by decide⟩

/-- C2 witness: the amended theorem applied to a concrete item. -/
theorem extract_url_resolved_against_seed_witness :
    extract_book_data "https://e.com/" bookC2w =
      some ⟨"W", "£2.00", .num 4, "In stock", "https://e.com/cat/w.html"⟩ ∧
    (∃ rel, headingHref bookC2w = some rel ∧
      ("https://e.com/cat/w.html" : String) = urljoin "https://e.com/" rel) :=
  ⟨by decide,
   extract_url_resolved_against_seed "https://e.com/" bookC2w
     ⟨"W", "£2.00", .num 4, "In stock", "https://e.com/cat/w.html"⟩ (by decide)⟩

/-- C3 counterexample: a record whose title is the empty string is
appended to the accumulator — the code never checks non-emptiness of
the title attribute. -/
theorem nonempty_title_counterexample :
    (scrape_books envC3 "https://e.com/" true "data/books.csv" 2).map
        (fun o => o.books.map Record.title) = some [""] := by decide

/-- C3 witness: the amended theorem applied to a concrete item. -/
theorem emitted_record_fields_witness :
    extract_book_data "https://e.com/" bookC3w =
      some ⟨"T", "£3.00", .num 5, "In stock", "https://e.com/t.html"⟩ ∧
    (headingTitle bookC3w =
        some (Record.title ⟨"T", "£3.00", .num 5, "In stock", "https://e.com/t.html"⟩) ∧
      (record_row ⟨"T", "£3.00", .num 5, "In stock", "https://e.com/t.html"⟩).length = 5) :=
  ⟨by decide,
   emitted_record_fields "https://e.com/" bookC3w
     ⟨"T", "£3.00", .num 5, "In stock", "https://e.com/t.html"⟩ (by decide)⟩

/-- C4 witness: the chain theorem applied to a concrete two-page chain,
with the resulting record list evaluated. -/
theorem walk_visits_chain_and_concatenates_witness :
    chainOk envC4 chain4 ∧
    scrape_books envC4 "https://e.com/" true "data/books.csv" 5 =
      some ⟨chainBooks "https://e.com/" chain4,
            save_to_csv true (chainBooks "https://e.com/" chain4) "data/books.csv",
            chainUrls chain4, 2⟩ ∧
    chainBooks "https://e.com/" chain4 =
      [⟨"B1", "£1.00", .num 3, "In stock", "https://e.com/b1.html"⟩,
       ⟨"B2", "£2.00", .num 2, "In stock", "https://e.com/b2.html"⟩] :=
  have hc : chainOk envC4 chain4 :=
    ⟨by decide, by decide,
     (by decide :
       page_next pageC4a "https://e.com/" = .go "https://e.com/page-2.html"),
     by decide, by decide,
     (by decide : page_next pageC4b "https://e.com/page-2.html" = .stop),
     trivial⟩
  ⟨hc,
   walk_visits_chain_and_concatenates envC4 "https://e.com/" "data/books.csv"
     true pageC4a [("https://e.com/page-2.html", pageC4b)] 5 hc (by decide),
   by decide⟩

/-- C5 witness: the fail-chain theorem applied to a concrete walk whose
second fetch returns status 404, with the partial records evaluated. -/
theorem fetch_failure_truncates_walk_witness :
    failChain envC5 "https://e.com/page-2.html" chain5 ∧
    scrape_books envC5 "https://e.com/" true "data/books.csv" 5 =
      some ⟨chainBooks "https://e.com/" chain5,
            save_to_csv true (chainBooks "https://e.com/" chain5) "data/books.csv",
            chainUrls chain5 ++ ["https://e.com/page-2.html"], 1⟩ ∧
    chainBooks "https://e.com/" chain5 =
      [⟨"P1", "£1.00", .num 1, "In stock", "https://e.com/p1.html"⟩] :=
  have hfail : ∀ p, envC5 "https://e.com/page-2.html" ≠ .ok p := by
    intro p h
    rw [show envC5 "https://e.com/page-2.html" = .httpError 404 from rfl] at h
    exact HttpResult.noConfusion h
  have hc : failChain envC5 "https://e.com/page-2.html" chain5 :=
    ⟨by decide, by decide, by decide, by decide, hfail⟩
  ⟨hc,
   fetch_failure_truncates_walk envC5 "https://e.com/" "data/books.csv"
     "https://e.com/page-2.html" true chain5 5 hc rfl (by decide),
   by decide⟩

/-- C6 witness: the rating theorem applied to an item whose star-rating
token Zero is outside the vocabulary: extraction still succeeds and the
rating is the unknown sentinel. -/
theorem rating_mapping_total_witness :
    star_token bookC6 = some "Zero" ∧
    extract_book_data "https://e.com/" bookC6 =
      some ⟨"R", "£1.00", .na, "In stock", "https://e.com/r.html"⟩ ∧
    Record.rating ⟨"R", "£1.00", .na, "In stock", "https://e.com/r.html"⟩ =
      rating_map_get "Zero" ∧
    rating_map_get "Zero" = .na :=
  ⟨by decide, by decide,
   rating_mapping_total.2.2 "https://e.com/" bookC6
     ⟨"R", "£1.00", .na, "In stock", "https://e.com/r.html"⟩ "Zero"
     (by decide) (by decide),
   rating_mapping_total.2.1 "Zero" (by decide)⟩

/-- C7 witness: the delay theorem applied to a concrete environment —
one delay unit after the successful fetch, none after the failing one,
and the walk's total delay equals its successful fetch count. -/
theorem politeness_delay_on_success_only_witness :
    (get_page_content envC7 "https://a.com/").2 = 1 ∧
    (get_page_content envC7 "https://b.com/").2 = 0 ∧
    scrape_books envC7 "https://a.com/" true "data/books.csv" 2 = some outC7 ∧
    outC7.delays = outC7.visited.countP (fun v => (envC7 v).isOk) :=
  ⟨((politeness_delay_on_success_only envC7 "https://a.com/").1).mpr (by decide),
   ((politeness_delay_on_success_only envC7 "https://b.com/").2.1).mpr (by decide),
   by decide,
   (politeness_delay_on_success_only envC7 "https://a.com/").2.2
     "https://a.com/" true "data/books.csv" 2 outC7 (by decide)⟩

/-- C8 counterexample: a completed walk with one record and the default
output filename books.csv produces no CSV file at all — the claim that
the CSV is always written once at the end fails. -/
theorem csv_default_path_counterexample :
    (scrape_books envC8 "https://e.com/" true "books.csv" 2).map
        (fun o => (o.csv, o.books.length)) = some (none, 1) := by decide

/-- C8 witness: the amended theorem applied to a concrete walk with a
directory-qualified output path. -/
theorem csv_written_once_with_header_witness :
    scrape_books envC8 "https://e.com/" true "data/books.csv" 2 = some outC8 ∧
    outC8.books ≠ [] ∧ dirname "data/books.csv" ≠ "" ∧
    outC8.csv = some ⟨some ["title", "price", "rating", "availability", "url"],
                      outC8.books.map record_row⟩ :=
  ⟨by decide, by decide, by decide,
   csv_written_once_with_header envC8 "https://e.com/" "data/books.csv" 2 outC8
     (by decide) (by decide) (by decide)⟩

/-- C9 witness: the persistence-failure theorem applied to a concrete
walk with an injected write error. -/
theorem csv_failure_preserves_result_witness :
    ((scrape_books envC8 "https://e.com/" false "data/books.csv" 2).map
        ScrapeResult.books =
      (scrape_books envC8 "https://e.com/" true "data/books.csv" 2).map
        ScrapeResult.books) ∧
    scrape_books envC8 "https://e.com/" false "data/books.csv" 2 = some outNoCsv ∧
    outNoCsv.csv = none :=
  ⟨(csv_failure_preserves_result envC8 "https://e.com/" "data/books.csv" 2).1,
   by decide,
   (csv_failure_preserves_result envC8 "https://e.com/" "data/books.csv" 2).2
     outNoCsv (by decide)⟩

/-- C10 witness: the bare-filename theorem applied to a concrete walk
with the default output filename. -/
theorem bare_filename_skips_csv_witness :
    dirname "books.csv" = "" ∧
    scrape_books envC8 "https://e.com/" true "books.csv" 2 = some outNoCsv ∧
    outNoCsv.csv = none ∧
    ((scrape_books envC8 "https://e.com/" true "books.csv" 2).map
        ScrapeResult.books =
      (scrape_books envC8 "https://e.com/" true "data/books.csv" 2).map
        ScrapeResult.books) :=
  ⟨by decide, by decide,
   (bare_filename_skips_csv envC8 "https://e.com/" "books.csv" "data/books.csv"
     true true 2).1 (by decide) outNoCsv (by decide),
   (bare_filename_skips_csv envC8 "https://e.com/" "books.csv" "data/books.csv"
     true true 2).2⟩
